import Mathlib

set_option maxRecDepth 4000
set_option maxHeartbeats 1000000

/-!
Shallow embedding of the AidChain escrow contract (contracts/src/AidChain.sol,
Solidity 0.8). Each external function is modelled as a total Lean function from
an explicit contract state and call context (sender, attached value, timestamp)
to `Except AidError AidChainState`; a returned `error` models a revert, which
rolls back the whole call, so the caller keeps the pre-state. uint256 values
are modelled as `Nat`: Solidity 0.8 checked arithmetic reverts instead of
wrapping, so no reachable execution ever wraps and `Nat` addition agrees with
the source on every reachable state. Addresses are modelled as `Nat`.

For the two functions that issue outbound external calls (`fundProject` mints
reward tokens; `approveMilestone` transfers ETH), the state visible to the
external callee at the call point is named explicitly (`fundMidState`,
`approveMidState`), mirroring the exact order of storage writes in the source.
The `locked` field models the OpenZeppelin ReentrancyGuard status slot; in the
source only `fundProject` carries the `nonReentrant` modifier.
-/

namespace AidChain

/-- Account addresses, modelled as naturals. -/
abbrev Addr := Nat

/-- Pointwise update of a `Nat`-keyed mapping (Solidity `mapping`). -/
def mapSet {β : Type} (f : Nat → β) (k : Nat) (v : β) : Nat → β :=
  fun x => if x = k then v else f x

/-- Update of a doubly keyed mapping (`mapping(uint256 => mapping(address => bool))`). -/
def mapSet2 (f : Nat → Nat → Bool) (k a : Nat) (v : Bool) : Nat → Nat → Bool :=
  mapSet f k (mapSet (f k) a v)

/-- `VERIFICATION_REWARD` constant of the source (AID tokens for zkKYC verification). -/
def VERIFICATION_REWARD : Nat := 100

/-- `MILESTONE_COMPLETION_REWARD` constant of the source. -/
def MILESTONE_COMPLETION_REWARD : Nat := 50

/-- `DONATION_REWARD_MULTIPLIER` constant of the source (1 AID per 0.001 ETH). -/
def DONATION_REWARD_MULTIPLIER : Nat := 1000

/-- `MILESTONE_REPUTATION_BOOST` constant of the source. -/
def MILESTONE_REPUTATION_BOOST : Nat := 10

/-- One ether in wei (`1 ether` in the source). -/
def etherUnit : Nat := 10 ^ 18

/-- Token base units per whole AID token (`10**18` in the source). -/
def tokenUnit : Nat := 10 ^ 18

/-- The `Project` struct of the source. -/
structure Project where
  id : Nat
  creator : Addr
  name : String
  description : String
  ipfsHash : String
  fundingGoal : Nat
  fundsRaised : Nat
  createdAt : Nat
  active : Bool
  zkKycVerified : Bool
  reputationScore : Nat
deriving DecidableEq

/-- The `Milestone` struct of the source. -/
structure Milestone where
  id : Nat
  projectId : Nat
  description : String
  fundingAmount : Nat
  proofIpfsHash : String
  completed : Bool
  approved : Bool
  votesFor : Nat
  votesAgainst : Nat
  votingDeadline : Nat
deriving DecidableEq

/-- The `Donation` struct of the source. -/
structure Donation where
  donor : Addr
  amount : Nat
  timestamp : Nat
  projectId : Nat
deriving DecidableEq

/-- Zero-initialised `Project` (Solidity default storage). -/
def emptyProject : Project :=
  { id := 0, creator := 0, name := "", description := "", ipfsHash := ""
    fundingGoal := 0, fundsRaised := 0, createdAt := 0
    active := false, zkKycVerified := false, reputationScore := 0 }

/-- Zero-initialised `Milestone` (Solidity default storage for unset mapping keys). -/
def emptyMilestone : Milestone :=
  { id := 0, projectId := 0, description := "", fundingAmount := 0
    proofIpfsHash := "", completed := false, approved := false
    votesFor := 0, votesAgainst := 0, votingDeadline := 0 }

/-- Full storage of one `AidChain` contract instance, plus the ghost fields
needed to observe its environment: `balance` is the instance's ETH balance,
`aidBalances` the AID-token ledger credits minted through `aidToken.mint`, and
`ethSent` the cumulative ETH transferred out to each address. `locked` is the
ReentrancyGuard status slot, `inited` the one-shot Initializable guard. -/
structure AidChainState where
  inited : Bool
  locked : Bool
  owner : Addr
  aidTokenAddr : Addr
  project : Project
  milestoneCount : Nat
  milestones : Nat → Milestone
  projectMilestones : List Nat
  donorReputation : Addr → Nat
  milestoneVotes : Nat → Addr → Bool
  projectDonations : Addr → Nat
  donorHistory : Addr → List Donation
  balance : Nat
  aidBalances : Addr → Nat
  ethSent : Addr → Nat

/-- The typed errors of the source, plus the two reverts raised by the
OpenZeppelin base contracts (`InvalidInitialization`, reentrant-call). -/
inductive AidError where
  | invalidMilestoneId : Nat → AidError
  | notProjectCreator : Addr → AidError
  | milestoneAlreadyCompleted : Nat → AidError
  | milestoneNotCompleted : Nat → AidError
  | milestoneAlreadyApproved : Nat → AidError
  | votingPeriodEnded : Nat → AidError
  | alreadyVoted : Nat → Addr → AidError
  | notADonor : Addr → AidError
  | donationMustBePositive : AidError
  | projectNotActive : AidError
  | projectNotVerified : AidError
  | projectAlreadyVerified : Nat → AidError
  | alreadyInited : AidError
  | reentrantCall : AidError
deriving DecidableEq

/-- State of a freshly deployed proxy before `initialize`: all storage zero. -/
def emptyState : AidChainState :=
  { inited := false, locked := false, owner := 0, aidTokenAddr := 0
    project := emptyProject, milestoneCount := 0
    milestones := fun _ => emptyMilestone, projectMilestones := []
    donorReputation := fun _ => 0, milestoneVotes := fun _ _ => false
    projectDonations := fun _ => 0, donorHistory := fun _ => []
    balance := 0, aidBalances := fun _ => 0, ethSent := fun _ => 0 }

/-- Whether an `Except` result is a success. -/
def exOk {α : Type} : Except AidError α → Bool
  | Except.ok _ => true
  | Except.error _ => false

/-- The error of a result, if any. -/
def errOf {α : Type} : Except AidError α → Option AidError
  | Except.ok _ => none
  | Except.error e => some e

/-- The `initialize` function of the source (`initializer` modifier modelled by
the `inited` one-shot flag; OpenZeppelin reverts with `InvalidInitialization`
on a repeated call). The source performs no validation of its arguments. -/
def initProject (s : AidChainState) (tokenAddr creator : Addr)
    (nm dsc ipfs : String) (goal now : Nat) : Except AidError AidChainState :=
  if s.inited then Except.error AidError.alreadyInited
  else
    Except.ok { s with
      inited := true
      owner := creator
      aidTokenAddr := tokenAddr
      project :=
        { id := 1, creator := creator, name := nm, description := dsc
          ipfsHash := ipfs, fundingGoal := goal, fundsRaised := 0
          createdAt := now, active := true, zkKycVerified := false
          reputationScore := 0 } }

/-- The `verifyZkKyc` function of the source. -/
def verifyZkKyc (s : AidChainState) : Except AidError AidChainState :=
  if s.project.zkKycVerified then
    Except.error (AidError.projectAlreadyVerified s.project.id)
  else
    Except.ok { s with
      project := { s.project with zkKycVerified := true }
      aidBalances := mapSet s.aidBalances s.project.creator
        (s.aidBalances s.project.creator + VERIFICATION_REWARD * tokenUnit) }

/-- State observed by the external `aidToken.mint` call inside `fundProject`:
every storage write of the function (fundsRaised, projectDonations,
donorHistory push, donorReputation) is already applied, the attached value is
already part of the balance, and the `nonReentrant` lock is held. -/
def fundMidState (s : AidChainState) (sender : Addr) (value now : Nat) :
    AidChainState :=
  { s with
    locked := true
    balance := s.balance + value
    project := { s.project with fundsRaised := s.project.fundsRaised + value }
    projectDonations := mapSet s.projectDonations sender
      (s.projectDonations sender + value)
    donorHistory := mapSet s.donorHistory sender
      (s.donorHistory sender ++
        [{ donor := sender, amount := value, timestamp := now
           projectId := s.project.id }])
    donorReputation := mapSet s.donorReputation sender
      (s.donorReputation sender + value) }

/-- The `fundProject` function of the source (`nonReentrant`, `payable`;
`value` is `msg.value`, `now` is `block.timestamp`). -/
def fundProject (s : AidChainState) (sender : Addr) (value now : Nat) :
    Except AidError AidChainState :=
  if s.locked then Except.error AidError.reentrantCall
  else if value = 0 then Except.error AidError.donationMustBePositive
  else if s.project.active = false then Except.error AidError.projectNotActive
  else if s.project.zkKycVerified = false then
    Except.error AidError.projectNotVerified
  else
    let t := fundMidState s sender value now
    let aidReward := value * DONATION_REWARD_MULTIPLIER / etherUnit
    if 0 < aidReward then
      Except.ok { t with
        locked := false
        aidBalances := mapSet t.aidBalances sender
          (t.aidBalances sender + aidReward * tokenUnit) }
    else
      Except.ok { t with locked := false }

/-- The `createMilestone` function of the source. -/
def createMilestone (s : AidChainState) (sender : Addr) (now : Nat)
    (dsc : String) (amt dur : Nat) : Except AidError AidChainState :=
  if sender ≠ s.project.creator then
    Except.error (AidError.notProjectCreator sender)
  else if s.project.active = false then Except.error AidError.projectNotActive
  else
    let c := s.milestoneCount + 1
    Except.ok { s with
      milestoneCount := c
      milestones := mapSet s.milestones c
        { id := c, projectId := s.project.id, description := dsc
          fundingAmount := amt, proofIpfsHash := "", completed := false
          approved := false, votesFor := 0, votesAgainst := 0
          votingDeadline := now + dur }
      projectMilestones := s.projectMilestones ++ [c] }

/-- The `submitMilestoneProof` function of the source: anchors a proof
reference on a not-yet-completed milestone. -/
def submitMilestoneProof (s : AidChainState) (sender : Addr) (mid : Nat)
    (p : String) : Except AidError AidChainState :=
  if mid = 0 ∨ s.milestoneCount < mid then
    Except.error (AidError.invalidMilestoneId mid)
  else if sender ≠ s.project.creator then
    Except.error (AidError.notProjectCreator sender)
  else if (s.milestones mid).completed then
    Except.error (AidError.milestoneAlreadyCompleted mid)
  else
    Except.ok { s with
      milestones := mapSet s.milestones mid
        { s.milestones mid with proofIpfsHash := p } }

/-- The `finalizeMilestone` function of the source: marks a milestone
completed, opening it for voting. -/
def finalizeMilestone (s : AidChainState) (sender : Addr) (mid : Nat) :
    Except AidError AidChainState :=
  if mid = 0 ∨ s.milestoneCount < mid then
    Except.error (AidError.invalidMilestoneId mid)
  else if sender ≠ s.project.creator then
    Except.error (AidError.notProjectCreator sender)
  else if (s.milestones mid).completed then
    Except.error (AidError.milestoneAlreadyCompleted mid)
  else
    Except.ok { s with
      milestones := mapSet s.milestones mid
        { s.milestones mid with completed := true } }

/-- The release amount computed by `approveMilestone`:
`milestone.fundingAmount` clamped to the contract balance. -/
def approveReleaseAmount (s : AidChainState) (mid : Nat) : Nat :=
  min (s.milestones mid).fundingAmount s.balance

/-- State observed by the recipient of the `transfer` inside
`approveMilestone`: the `approved` flag is set and the ETH has left the
contract, but the reputation boost and the completion-reward mint, which the
source performs after the transfer, are not yet applied. No reentrancy lock is
taken on this path in the source. -/
def approveMidState (s : AidChainState) (mid : Nat) : AidChainState :=
  let r := approveReleaseAmount s mid
  { s with
    milestones := mapSet s.milestones mid
      { s.milestones mid with approved := true }
    balance := s.balance - r
    ethSent := mapSet s.ethSent s.project.creator
      (s.ethSent s.project.creator + r) }

/-- The internal `approveMilestone` function of the source: sets `approved`,
clamps the release to the balance, and — only when the clamped amount is
positive — transfers it to the creator, boosts the project reputation and
mints the completion reward. -/
def approveMilestone (s : AidChainState) (mid : Nat) :
    Except AidError AidChainState :=
  if (s.milestones mid).approved then
    Except.error (AidError.milestoneAlreadyApproved mid)
  else if 0 < approveReleaseAmount s mid then
    let t := approveMidState s mid
    Except.ok { t with
      project := { t.project with
        reputationScore := t.project.reputationScore +
          MILESTONE_REPUTATION_BOOST }
      aidBalances := mapSet t.aidBalances s.project.creator
        (t.aidBalances s.project.creator +
          MILESTONE_COMPLETION_REWARD * tokenUnit) }
  else
    Except.ok { s with
      milestones := mapSet s.milestones mid
        { s.milestones mid with approved := true } }

/-- State after the vote-receipt mark and the tally update inside
`voteOnMilestone`, before the auto-approval check. -/
def voteMarked (s : AidChainState) (sender : Addr) (mid : Nat)
    (approveFlag : Bool) : AidChainState :=
  let w := s.projectDonations sender
  let m := s.milestones mid
  let m2 := if approveFlag then { m with votesFor := m.votesFor + w }
            else { m with votesAgainst := m.votesAgainst + w }
  { s with
    milestoneVotes := mapSet2 s.milestoneVotes mid sender true
    milestones := mapSet s.milestones mid m2 }

/-- The `voteOnMilestone` function of the source: guard chain in source
order, weighted tally update, then auto-approval the moment
`votesFor > votesAgainst`. -/
def voteOnMilestone (s : AidChainState) (sender : Addr) (now mid : Nat)
    (approveFlag : Bool) : Except AidError AidChainState :=
  if mid = 0 ∨ s.milestoneCount < mid then
    Except.error (AidError.invalidMilestoneId mid)
  else if (s.milestones mid).completed = false then
    Except.error (AidError.milestoneNotCompleted mid)
  else if (s.milestones mid).approved then
    Except.error (AidError.milestoneAlreadyApproved mid)
  else if (s.milestones mid).votingDeadline ≤ now then
    Except.error (AidError.votingPeriodEnded mid)
  else if s.milestoneVotes mid sender then
    Except.error (AidError.alreadyVoted mid sender)
  else if s.projectDonations sender = 0 then
    Except.error (AidError.notADonor sender)
  else
    let t := voteMarked s sender mid approveFlag
    if (t.milestones mid).votesAgainst < (t.milestones mid).votesFor then
      approveMilestone t mid
    else
      Except.ok t

/-- Top-level operations on an initialised instance, each carrying its call
context (sender, attached value where payable, timestamp where read). -/
inductive Op where
  | verify : Op
  | fund : Addr → Nat → Nat → Op
  | create : Addr → Nat → String → Nat → Nat → Op
  | anchor : Addr → Nat → String → Op
  | vote : Addr → Nat → Nat → Bool → Op
  | fin : Addr → Nat → Op

/-- Dispatch an operation to the corresponding contract function. -/
def dispatch (s : AidChainState) : Op → Except AidError AidChainState
  | Op.verify => verifyZkKyc s
  | Op.fund a v n => fundProject s a v n
  | Op.create a n d amt dur => createMilestone s a n d amt dur
  | Op.anchor a m p => submitMilestoneProof s a m p
  | Op.vote a n m b => voteOnMilestone s a n m b
  | Op.fin a m => finalizeMilestone s a m

/-- Transaction semantics: a revert rolls the state back. -/
def commit (s : AidChainState) : Except AidError AidChainState → AidChainState
  | Except.ok t => t
  | Except.error _ => s

/-- One top-level transaction. -/
def step (s : AidChainState) (op : Op) : AidChainState :=
  commit s (dispatch s op)

/-- A sequence of top-level transactions. -/
def run (s : AidChainState) : List Op → AidChainState
  | [] => s
  | op :: ops => run (step s op) ops

/-- Whether an operation is a `finalizeMilestone` call. -/
def Op.isFin : Op → Bool
  | Op.fin _ _ => true
  | _ => false

/-- Whether an operation is a `voteOnMilestone` call by voter `v` on
milestone `m`. -/
def Op.isVoteOn : Op → Nat → Addr → Bool
  | Op.vote a _ m _, mid, v => a == v && m == mid
  | _, _, _ => false

/-- Number of successful `voteOnMilestone` calls by `v` on milestone `m`
along a run of operations. -/
def voteCount (m : Nat) (v : Addr) : AidChainState → List Op → Nat
  | _, [] => 0
  | s, op :: ops =>
      (if op.isVoteOn m v && exOk (dispatch s op) then 1 else 0) +
        voteCount m v (step s op) ops

/-- Pointwise order on the monotone quantities: `fundsRaised`,
`reputationScore`, every milestone's tallies, every donor's reputation. -/
def StateLe (s t : AidChainState) : Prop :=
  s.project.fundsRaised ≤ t.project.fundsRaised
  ∧ s.project.reputationScore ≤ t.project.reputationScore
  ∧ (∀ k, (s.milestones k).votesFor ≤ (t.milestones k).votesFor)
  ∧ (∀ k, (s.milestones k).votesAgainst ≤ (t.milestones k).votesAgainst)
  ∧ (∀ d, s.donorReputation d ≤ t.donorReputation d)

/-- Structural invariant of every reachable state: milestone slots beyond the
counter still hold the zero-initialised default. -/
def Inv (s : AidChainState) : Prop :=
  ∀ k, s.milestoneCount < k → s.milestones k = emptyMilestone

/-- Sum of the amounts of a list of donation records. -/
def sumAmounts (l : List Donation) : Nat :=
  (l.map Donation.amount).sum

/-- Donor accounting invariant: global reputation = cumulative project
donations (the vote weight) = summed donation history, for every donor. -/
def donorInv (s : AidChainState) : Prop :=
  ∀ d, s.donorReputation d = s.projectDonations d
    ∧ s.projectDonations d = sumAmounts (s.donorHistory d)

/-- States reachable from a fresh deployment: one `initialize` call followed
by any sequence of top-level operations. -/
inductive Reachable : AidChainState → Prop where
  | base (a c : Addr) (nm dsc ipfs : String) (goal now : Nat)
      (s : AidChainState)
      (h : initProject emptyState a c nm dsc ipfs goal now = Except.ok s) :
      Reachable s
  | next (s : AidChainState) (op : Op) (h : Reachable s) :
      Reachable (step s op)

/-! Concrete scenario states used by the counterexamples and witnesses below.
Addresses: 10 is the project creator, 99 the AID token, 1 and 2 are donors. -/

/-- Freshly initialised instance (goal 10 wei, creator 10). -/
def sInit : AidChainState :=
  commit emptyState (initProject emptyState 99 10 "p" "d" "h" 10 0)

/-- Instance after `verifyZkKyc`. -/
def sVer : AidChainState := step sInit Op.verify

/-- Scenario B prefix: donor 1 funds 1 wei, donor 2 funds 2 wei, the creator
creates milestone 1 (fundingAmount 2, deadline 100) and finalizes it. -/
def sB0 : AidChainState :=
  run sVer [Op.fund 1 1 0, Op.fund 2 2 0, Op.create 10 0 "m" 2 100,
    Op.fin 10 1]

/-- Scenario B after donor 1 votes against (weight 1) at time 5. -/
def sB1 : AidChainState := step sB0 (Op.vote 1 5 1 false)

/-- Scenario B after donor 2 then votes for (weight 2) at time 6. -/
def sB2 : AidChainState := step sB1 (Op.vote 2 6 1 true)

/-- Vote by donor 2 on milestone 1 of `sB0`, after the receipt mark and tally
update, at the moment the auto-approval is about to release funds. -/
def c2Voted : AidChainState := voteMarked sB0 2 1 true

/-- State observed by the recipient of the release `transfer` triggered by
donor 2's vote on `sB0`. -/
def c2Mid : AidChainState := approveMidState c2Voted 1

/-- Scenario with the balance drained: donor 1 funds 1 wei, milestone 1
(fundingAmount 1) is finalized and approved, releasing the whole balance. -/
def sDrained : AidChainState :=
  run sVer [Op.fund 1 1 0, Op.create 10 0 "m" 1 100, Op.fin 10 1,
    Op.vote 1 5 1 true]

/-- Drained instance with a second finalized milestone (fundingAmount 5). -/
def sDrained2 : AidChainState :=
  run sDrained [Op.create 10 0 "n" 5 100, Op.fin 10 2]

/-- Donor 1 votes for milestone 2 on the drained instance: it is approved with
a zero release. -/
def sDrained3 : AidChainState := step sDrained2 (Op.vote 1 6 2 true)

/-- Instance with one fresh (not completed) milestone, for the proof-anchoring
claims. -/
def sM0 : AidChainState := step sVer (Op.create 10 0 "m" 2 100)

/-- Instance after the creator anchors proof reference "q" on milestone 1. -/
def sM1 : AidChainState := step sM0 (Op.anchor 10 1 "q")

/-! Success-inversion lemmas: what each contract function's success tells us
about the guard conditions and the produced state. -/

@[simp] theorem mapSet_same {β : Type} (f : Nat → β) (k : Nat) (v : β) :
    mapSet f k v k = v := by
  simp [mapSet]

theorem mapSet_ne {β : Type} (f : Nat → β) (k : Nat) (v : β) (x : Nat)
    (h : x ≠ k) : mapSet f k v x = f x := by
  simp [mapSet, h]


@[simp] theorem exOk_ok {α : Type} (x : α) : exOk (Except.ok x) = true := rfl

@[simp] theorem exOk_error {α : Type} (e : AidError) :
    exOk (Except.error e : Except AidError α) = false := rfl

theorem step_of_ok {s t : AidChainState} {op : Op}
    (h : dispatch s op = Except.ok t) : step s op = t := by
  simp [step, h, commit]

theorem step_of_error {s : AidChainState} {op : Op} {e : AidError}
    (h : dispatch s op = Except.error e) : step s op = s := by
  simp [step, h, commit]

theorem initProject_ok_inv {s t : AidChainState} {a c : Addr}
    {nm dsc ipfs : String} {goal now : Nat}
    (h : initProject s a c nm dsc ipfs goal now = Except.ok t) :
    s.inited = false ∧
    t = { s with
      inited := true, owner := c, aidTokenAddr := a
      project :=
        { id := 1, creator := c, name := nm, description := dsc
          ipfsHash := ipfs, fundingGoal := goal, fundsRaised := 0
          createdAt := now, active := true, zkKycVerified := false
          reputationScore := 0 } } := by
  unfold initProject at h
  split at h
  · simp at h
  · rename_i hg
    simp only [Bool.not_eq_true] at hg
    injection h with h2
    exact ⟨hg, h2.symm⟩

theorem verifyZkKyc_ok_inv {s t : AidChainState}
    (h : verifyZkKyc s = Except.ok t) :
    s.project.zkKycVerified = false ∧
    t = { s with
      project := { s.project with zkKycVerified := true }
      aidBalances := mapSet s.aidBalances s.project.creator
        (s.aidBalances s.project.creator + VERIFICATION_REWARD * tokenUnit) } := by
  unfold verifyZkKyc at h
  split at h
  · simp at h
  · rename_i hg
    simp only [Bool.not_eq_true] at hg
    injection h with h2
    exact ⟨hg, h2.symm⟩

theorem fundProject_ok_inv {s t : AidChainState} {a : Addr} {v now : Nat}
    (h : fundProject s a v now = Except.ok t) :
    s.locked = false ∧ v ≠ 0 ∧ s.project.active = true ∧
    s.project.zkKycVerified = true ∧
    (t = { fundMidState s a v now with locked := false } ∨
     t = { fundMidState s a v now with
        locked := false
        aidBalances := mapSet (fundMidState s a v now).aidBalances a
          ((fundMidState s a v now).aidBalances a +
            v * DONATION_REWARD_MULTIPLIER / etherUnit * tokenUnit) }) := by
  unfold fundProject at h
  dsimp only at h
  split at h
  · simp at h
  split at h
  · simp at h
  split at h
  · simp at h
  split at h
  · simp at h
  rename_i h1 h2 h3 h4
  simp only [Bool.not_eq_true] at h1
  simp only [Bool.not_eq_false] at h3 h4
  refine ⟨h1, h2, h3, h4, ?_⟩
  split at h
  · right
    injection h with h5
    rw [← h5]
  · left
    injection h with h5
    rw [← h5]

theorem createMilestone_ok_inv {s t : AidChainState} {a : Addr} {now : Nat}
    {dsc : String} {amt dur : Nat}
    (h : createMilestone s a now dsc amt dur = Except.ok t) :
    a = s.project.creator ∧ s.project.active = true ∧
    t = { s with
      milestoneCount := s.milestoneCount + 1
      milestones := mapSet s.milestones (s.milestoneCount + 1)
        { id := s.milestoneCount + 1, projectId := s.project.id
          description := dsc, fundingAmount := amt, proofIpfsHash := ""
          completed := false, approved := false, votesFor := 0
          votesAgainst := 0, votingDeadline := now + dur }
      projectMilestones := s.projectMilestones ++ [s.milestoneCount + 1] } := by
  unfold createMilestone at h
  split at h
  · simp at h
  split at h
  · simp at h
  rename_i h1 h2
  simp only [ne_eq, not_not] at h1
  simp only [Bool.not_eq_false] at h2
  injection h with h3
  exact ⟨h1, h2, h3.symm⟩

theorem submitMilestoneProof_ok_inv {s t : AidChainState} {a : Addr}
    {mid : Nat} {p : String}
    (h : submitMilestoneProof s a mid p = Except.ok t) :
    mid ≠ 0 ∧ mid ≤ s.milestoneCount ∧ a = s.project.creator ∧
    (s.milestones mid).completed = false ∧
    t = { s with
      milestones := mapSet s.milestones mid
        { s.milestones mid with proofIpfsHash := p } } := by
  unfold submitMilestoneProof at h
  split at h
  · simp at h
  split at h
  · simp at h
  split at h
  · simp at h
  rename_i h1 h2 h3
  push_neg at h1
  simp only [ne_eq, not_not] at h2
  simp only [Bool.not_eq_true] at h3
  injection h with h4
  exact ⟨h1.1, h1.2, h2, h3, h4.symm⟩

theorem finalizeMilestone_ok_inv {s t : AidChainState} {a : Addr} {mid : Nat}
    (h : finalizeMilestone s a mid = Except.ok t) :
    mid ≠ 0 ∧ mid ≤ s.milestoneCount ∧ a = s.project.creator ∧
    (s.milestones mid).completed = false ∧
    t = { s with
      milestones := mapSet s.milestones mid
        { s.milestones mid with completed := true } } := by
  unfold finalizeMilestone at h
  split at h
  · simp at h
  split at h
  · simp at h
  split at h
  · simp at h
  rename_i h1 h2 h3
  push_neg at h1
  simp only [ne_eq, not_not] at h2
  simp only [Bool.not_eq_true] at h3
  injection h with h4
  exact ⟨h1.1, h1.2, h2, h3, h4.symm⟩

theorem approveMilestone_ok_inv {s t : AidChainState} {mid : Nat}
    (h : approveMilestone s mid = Except.ok t) :
    (s.milestones mid).approved = false ∧
    ((0 < approveReleaseAmount s mid ∧
      t = { approveMidState s mid with
        project := { (approveMidState s mid).project with
          reputationScore := (approveMidState s mid).project.reputationScore +
            MILESTONE_REPUTATION_BOOST }
        aidBalances := mapSet (approveMidState s mid).aidBalances
          s.project.creator
          ((approveMidState s mid).aidBalances s.project.creator +
            MILESTONE_COMPLETION_REWARD * tokenUnit) }) ∨
     (approveReleaseAmount s mid = 0 ∧
      t = { s with
        milestones := mapSet s.milestones mid
          { s.milestones mid with approved := true } })) := by
  unfold approveMilestone at h
  split at h
  · simp at h
  rename_i h1
  simp only [Bool.not_eq_true] at h1
  refine ⟨h1, ?_⟩
  split at h
  · rename_i h2
    left
    injection h with h3
    exact ⟨h2, h3.symm⟩
  · rename_i h2
    right
    injection h with h3
    exact ⟨Nat.eq_zero_of_not_pos h2, h3.symm⟩

@[simp] theorem voteMarked_milestones_at (s : AidChainState) (a : Addr)
    (mid : Nat) (b : Bool) :
    (voteMarked s a mid b).milestones mid =
      (if b then
        { s.milestones mid with
          votesFor := (s.milestones mid).votesFor + s.projectDonations a }
      else
        { s.milestones mid with
          votesAgainst :=
            (s.milestones mid).votesAgainst + s.projectDonations a }) := by
  simp [voteMarked]

theorem voteMarked_milestones_ne (s : AidChainState) (a : Addr) (mid : Nat)
    (b : Bool) (k : Nat) (h : k ≠ mid) :
    (voteMarked s a mid b).milestones k = s.milestones k := by
  simp [voteMarked, mapSet_ne _ _ _ _ h]

@[simp] theorem voteMarked_project (s : AidChainState) (a : Addr) (mid : Nat)
    (b : Bool) : (voteMarked s a mid b).project = s.project := rfl

@[simp] theorem voteMarked_balance (s : AidChainState) (a : Addr) (mid : Nat)
    (b : Bool) : (voteMarked s a mid b).balance = s.balance := rfl

@[simp] theorem voteMarked_projectDonations (s : AidChainState) (a : Addr)
    (mid : Nat) (b : Bool) :
    (voteMarked s a mid b).projectDonations = s.projectDonations := rfl

@[simp] theorem voteMarked_donorReputation (s : AidChainState) (a : Addr)
    (mid : Nat) (b : Bool) :
    (voteMarked s a mid b).donorReputation = s.donorReputation := rfl

@[simp] theorem voteMarked_donorHistory (s : AidChainState) (a : Addr)
    (mid : Nat) (b : Bool) :
    (voteMarked s a mid b).donorHistory = s.donorHistory := rfl

@[simp] theorem voteMarked_milestoneCount (s : AidChainState) (a : Addr)
    (mid : Nat) (b : Bool) :
    (voteMarked s a mid b).milestoneCount = s.milestoneCount := rfl

@[simp] theorem voteMarked_projectMilestones (s : AidChainState) (a : Addr)
    (mid : Nat) (b : Bool) :
    (voteMarked s a mid b).projectMilestones = s.projectMilestones := rfl

@[simp] theorem voteMarked_aidBalances (s : AidChainState) (a : Addr)
    (mid : Nat) (b : Bool) :
    (voteMarked s a mid b).aidBalances = s.aidBalances := rfl

@[simp] theorem voteMarked_ethSent (s : AidChainState) (a : Addr) (mid : Nat)
    (b : Bool) : (voteMarked s a mid b).ethSent = s.ethSent := rfl

@[simp] theorem voteMarked_milestoneVotes (s : AidChainState) (a : Addr)
    (mid : Nat) (b : Bool) :
    (voteMarked s a mid b).milestoneVotes =
      mapSet2 s.milestoneVotes mid a true := rfl

@[simp] theorem approveMidState_project (s : AidChainState) (mid : Nat) :
    (approveMidState s mid).project = s.project := rfl

@[simp] theorem approveMidState_balance (s : AidChainState) (mid : Nat) :
    (approveMidState s mid).balance =
      s.balance - approveReleaseAmount s mid := rfl

@[simp] theorem approveMidState_milestones (s : AidChainState) (mid : Nat) :
    (approveMidState s mid).milestones =
      mapSet s.milestones mid { s.milestones mid with approved := true } := rfl

@[simp] theorem approveMidState_aidBalances (s : AidChainState) (mid : Nat) :
    (approveMidState s mid).aidBalances = s.aidBalances := rfl

@[simp] theorem approveMidState_ethSent (s : AidChainState) (mid : Nat) :
    (approveMidState s mid).ethSent =
      mapSet s.ethSent s.project.creator
        (s.ethSent s.project.creator + approveReleaseAmount s mid) := rfl

theorem voteOnMilestone_ok_inv {s t : AidChainState} {a : Addr}
    {now mid : Nat} {b : Bool}
    (h : voteOnMilestone s a now mid b = Except.ok t) :
    mid ≠ 0 ∧ mid ≤ s.milestoneCount ∧
    (s.milestones mid).completed = true ∧
    (s.milestones mid).approved = false ∧
    now < (s.milestones mid).votingDeadline ∧
    s.milestoneVotes mid a = false ∧
    0 < s.projectDonations a ∧
    ((((voteMarked s a mid b).milestones mid).votesFor ≤
        ((voteMarked s a mid b).milestones mid).votesAgainst ∧
      t = voteMarked s a mid b) ∨
     (((voteMarked s a mid b).milestones mid).votesAgainst <
        ((voteMarked s a mid b).milestones mid).votesFor ∧
      approveMilestone (voteMarked s a mid b) mid = Except.ok t)) := by
  unfold voteOnMilestone at h
  dsimp only at h
  split at h
  · simp at h
  split at h
  · simp at h
  split at h
  · simp at h
  split at h
  · simp at h
  split at h
  · simp at h
  split at h
  · simp at h
  rename_i h1 h2 h3 h4 h5 h6
  push_neg at h1
  simp only [Bool.not_eq_false] at h2
  simp only [Bool.not_eq_true] at h3 h5
  refine ⟨h1.1, h1.2, h2, h3, Nat.lt_of_not_le h4, h5,
    Nat.pos_of_ne_zero h6, ?_⟩
  split at h
  · rename_i h7
    exact Or.inr ⟨h7, h⟩
  · rename_i h7
    injection h with h8
    exact Or.inl ⟨Nat.le_of_not_lt h7, h8.symm⟩

/-! Claim C1. -/

/-- C1, original scenario refuted: in Scenario B, after donor D1's
against-vote the stored tally is 0 for vs 1 against — not "1 vs 1" as the
claim states — although the milestone indeed remains unapproved. -/
theorem c1_scenarioB_tally_counterexample :
    ¬ ((sB1.milestones 1).votesFor = 1 ∧ (sB1.milestones 1).votesAgainst = 1)
    ∧ (sB1.milestones 1).votesFor = 0
    ∧ (sB1.milestones 1).votesAgainst = 1
    ∧ (sB1.milestones 1).approved = false := by
  decide

/-- C1 (amended): a successful `voteOnMilestone` call leaves the milestone
approved exactly when the updated weighted tally satisfies
`votesFor > votesAgainst` strictly (no quorum), and on approval the clamped
fund release happens within the same call (the balance drops by
`min fundingAmount balance`). In Scenario B, donor D1's against-vote leaves
the tally at 0 for vs 1 against and the milestone unapproved; donor D2's
for-vote then makes it 2 vs 1 and auto-approves, releasing 2 wei. -/
theorem c1_vote_auto_approval (s t : AidChainState) (a : Addr) (now mid : Nat)
    (b : Bool) (h : voteOnMilestone s a now mid b = Except.ok t) :
    (((t.milestones mid).approved = true) ↔
      (t.milestones mid).votesAgainst < (t.milestones mid).votesFor)
    ∧ ((t.milestones mid).approved = true →
        t.balance + min ((s.milestones mid).fundingAmount) s.balance =
          s.balance)
    ∧ (sB1.milestones 1).votesFor = 0
    ∧ (sB1.milestones 1).votesAgainst = 1
    ∧ (sB1.milestones 1).approved = false
    ∧ (sB2.milestones 1).votesFor = 2
    ∧ (sB2.milestones 1).votesAgainst = 1
    ∧ (sB2.milestones 1).approved = true
    ∧ sB2.balance = 1 ∧ sB2.ethSent 10 = 2 := by
  obtain ⟨hm0, hmle, hcomp, happ, hdl, hrec, hw, hcase⟩ :=
    voteOnMilestone_ok_inv h
  have hrel : approveReleaseAmount (voteMarked s a mid b) mid =
      min ((s.milestones mid).fundingAmount) s.balance := by
    unfold approveReleaseAmount
    rw [voteMarked_milestones_at, voteMarked_balance]
    split <;> rfl
  refine ⟨?_, ?_, by decide, by decide, by decide, by decide, by decide,
    by decide, by decide, by decide⟩
  · rcases hcase with ⟨hle, ht⟩ | ⟨hlt, ha2⟩
    · subst ht
      rw [voteMarked_milestones_at] at hle ⊢
      constructor
      · intro hA
        exfalso
        revert hA
        split <;> simp [happ]
      · intro hlt2
        exact absurd hlt2 (Nat.not_lt.mpr hle)
    · obtain ⟨-, hshape⟩ := approveMilestone_ok_inv ha2
      have hA : (t.milestones mid).approved = true := by
        rcases hshape with ⟨-, ht⟩ | ⟨-, ht⟩ <;> subst ht <;> simp
      have hF : (t.milestones mid).votesFor =
          ((voteMarked s a mid b).milestones mid).votesFor := by
        rcases hshape with ⟨-, ht⟩ | ⟨-, ht⟩ <;> subst ht <;> simp
      have hG : (t.milestones mid).votesAgainst =
          ((voteMarked s a mid b).milestones mid).votesAgainst := by
        rcases hshape with ⟨-, ht⟩ | ⟨-, ht⟩ <;> subst ht <;> simp
      exact iff_of_true hA (by rw [hF, hG]; exact hlt)
  · intro hA
    rcases hcase with ⟨hle, ht⟩ | ⟨hlt, ha2⟩
    · exfalso
      subst ht
      rw [voteMarked_milestones_at] at hA
      revert hA
      split <;> simp [happ]
    · obtain ⟨-, hshape⟩ := approveMilestone_ok_inv ha2
      have hble : min ((s.milestones mid).fundingAmount) s.balance ≤
          s.balance := Nat.min_le_right _ _
      rcases hshape with ⟨hpos, ht⟩ | ⟨hzero, ht⟩
      · have hb : t.balance = s.balance -
            min ((s.milestones mid).fundingAmount) s.balance := by
          subst ht
          show (approveMidState (voteMarked s a mid b) mid).balance = _
          rw [approveMidState_balance, voteMarked_balance, hrel]
        rw [hb]
        exact Nat.sub_add_cancel hble
      · rw [hrel] at hzero
        have hb : t.balance = s.balance := by
          subst ht
          rfl
        rw [hb, hzero]
        exact Nat.add_zero _

/-- C1 witness: the amended vote rule applied to donor D2's concrete vote in
Scenario B, whose success is discharged by evaluation. -/
theorem c1_vote_auto_approval_witness :
    (sB2.milestones 1).approved = true :=
  (c1_vote_auto_approval sB1 sB2 2 6 1 true rfl).1.mpr (by decide)

/-! Claim C2. -/

/-- C2: the release path runs without the reentrancy lock. Donor 2's vote on
`sB0` succeeds and triggers the release transfer; at the transfer point
(`c2Mid`) the lock is free and a nested `fundProject` call is accepted, not
rejected — whereas during `fundProject`'s own external call the lock is held
and a nested `fundProject` is rejected. A nested `voteOnMilestone` during
`fundProject`'s external call is also accepted, because only `fundProject`
carries the guard. This refutes the claim that both Fund and the release hold
an instance-wide non-reentrant lock that rejects every nested mutating
invocation. -/
theorem c2_release_runs_unlocked :
    exOk (voteOnMilestone sB0 2 6 1 true) = true
    ∧ c2Mid.balance + 2 = sB0.balance
    ∧ c2Mid.locked = false
    ∧ exOk (fundProject c2Mid 1 7 9) = true
    ∧ fundProject (fundMidState sVer 1 5 0) 2 5 0 =
        Except.error AidError.reentrantCall
    ∧ exOk (voteOnMilestone (fundMidState sB0 1 etherUnit 4) 2 4 1 true) =
        true := by
  exact ⟨by decide, by decide, by decide, by decide, rfl, by decide⟩

/-! Claim C3. -/

/-- C3, original refuted: at the observable mid-transfer point of the release
triggered by donor 2's vote on `sB0`, the milestone is already `approved` and
the ETH is gone, but the project's `reputationScore` increment and the
completion-reward credit — record updates of the same operation — are not yet
applied; they appear only in the final state. So not all record updates are
committed before the outbound transfer. -/
theorem c3_release_partial_update_counterexample :
    (c2Mid.milestones 1).approved = true
    ∧ c2Mid.project.reputationScore = 0
    ∧ c2Mid.aidBalances 10 = 100 * tokenUnit
    ∧ (step sB0 (Op.vote 2 6 1 true)).project.reputationScore = 10
    ∧ (step sB0 (Op.vote 2 6 1 true)).aidBalances 10 = 150 * tokenUnit := by
  decide

/-- C3 (amended): in `fundProject` every balance and record update
(fundsRaised, the donation mapping, the donation history, the donor
reputation, the received value) is committed strictly before the outbound
reward call — the state at that call agrees with the final state on all of
them, and no credit has been issued yet at that point. In the release, the
`approved` flag and the balance decrement are committed before the outbound
transfer, but the `reputationScore` increment and the completion-reward
credit are applied only after it, so a callee during the transfer observes
the update partially applied. -/
theorem c3_update_ordering (s t u v : AidChainState) (a : Addr)
    (value now mid : Nat)
    (hf : fundProject s a value now = Except.ok t)
    (ha : approveMilestone u mid = Except.ok v)
    (hr : 0 < approveReleaseAmount u mid) :
    (fundMidState s a value now).project.fundsRaised = t.project.fundsRaised
    ∧ (fundMidState s a value now).projectDonations = t.projectDonations
    ∧ (fundMidState s a value now).donorHistory = t.donorHistory
    ∧ (fundMidState s a value now).donorReputation = t.donorReputation
    ∧ (fundMidState s a value now).balance = t.balance
    ∧ (fundMidState s a value now).aidBalances = s.aidBalances
    ∧ (approveMidState u mid).milestones = v.milestones
    ∧ (approveMidState u mid).balance = v.balance
    ∧ (approveMidState u mid).ethSent = v.ethSent
    ∧ (approveMidState u mid).project.reputationScore =
        u.project.reputationScore
    ∧ (approveMidState u mid).aidBalances = u.aidBalances
    ∧ v.project.reputationScore =
        u.project.reputationScore + MILESTONE_REPUTATION_BOOST
    ∧ v.aidBalances u.project.creator =
        u.aidBalances u.project.creator +
          MILESTONE_COMPLETION_REWARD * tokenUnit := by
  obtain ⟨-, -, -, -, hts⟩ := fundProject_ok_inv hf
  obtain ⟨-, hshape⟩ := approveMilestone_ok_inv ha
  have hfund :
      (fundMidState s a value now).project.fundsRaised = t.project.fundsRaised
      ∧ (fundMidState s a value now).projectDonations = t.projectDonations
      ∧ (fundMidState s a value now).donorHistory = t.donorHistory
      ∧ (fundMidState s a value now).donorReputation = t.donorReputation
      ∧ (fundMidState s a value now).balance = t.balance := by
    rcases hts with ht | ht <;> subst ht <;> exact ⟨rfl, rfl, rfl, rfl, rfl⟩
  rcases hshape with ⟨-, hv⟩ | ⟨hzero, -⟩
  · subst hv
    refine ⟨hfund.1, hfund.2.1, hfund.2.2.1, hfund.2.2.2.1, hfund.2.2.2.2,
      rfl, rfl, rfl, rfl, rfl, rfl, rfl, ?_⟩
    simp
  · rw [hzero] at hr
    exact absurd hr (lt_irrefl 0)

/-- C3 witness: the ordering discipline applied to a concrete donation on the
verified instance and to the concrete release triggered by donor 2's vote. -/
theorem c3_update_ordering_witness :
    (fundMidState sVer 1 5 0).balance = (step sVer (Op.fund 1 5 0)).balance
    ∧ (approveMidState c2Voted 1).project.reputationScore =
        c2Voted.project.reputationScore :=
  ⟨(c3_update_ordering sVer (step sVer (Op.fund 1 5 0)) c2Voted
      (commit c2Voted (approveMilestone c2Voted 1)) 1 5 0 1 rfl rfl
      (by decide)).2.2.2.2.1,
   (c3_update_ordering sVer (step sVer (Op.fund 1 5 0)) c2Voted
      (commit c2Voted (approveMilestone c2Voted 1)) 1 5 0 1 rfl rfl
      (by decide)).2.2.2.2.2.2.2.2.2.1⟩

/-! Claim C4. -/

/-- C4, original refuted: on the drained instance, donor 1's vote approves
milestone 2 (fundingAmount 5, balance 0, so the clamped release is 0), and the
project's `reputationScore` is NOT incremented by the fixed boost — the source
gates the reputation boost (and the transfer) behind `releaseAmount > 0`, not
only the reward credit. -/
theorem c4_zero_release_counterexample :
    exOk (voteOnMilestone sDrained2 1 6 2 true) = true
    ∧ sDrained2.balance = 0
    ∧ (sDrained2.milestones 2).fundingAmount = 5
    ∧ (sDrained3.milestones 2).approved = true
    ∧ sDrained3.project.reputationScore = sDrained2.project.reputationScore
    ∧ ¬ (sDrained3.project.reputationScore =
          sDrained2.project.reputationScore + MILESTONE_REPUTATION_BOOST) := by
  decide

/-- C4 (amended): a successful release marks the milestone approved and
computes `releaseAmount = min(fundingAmount, balance)` (equal to the balance
whenever `fundingAmount` exceeds it); when `releaseAmount > 0` it transfers
that amount to the creator, increments `reputationScore` by the fixed boost
and credits the fixed completion reward — all three gated together on
`releaseAmount > 0`; when `releaseAmount = 0` none of the three happens. -/
theorem c4_release_effects (s t : AidChainState) (mid : Nat)
    (h : approveMilestone s mid = Except.ok t) :
    (t.milestones mid).approved = true
    ∧ (s.balance < (s.milestones mid).fundingAmount →
        approveReleaseAmount s mid = s.balance)
    ∧ (0 < approveReleaseAmount s mid →
        t.balance + approveReleaseAmount s mid = s.balance
        ∧ t.ethSent s.project.creator =
            s.ethSent s.project.creator + approveReleaseAmount s mid
        ∧ t.project.reputationScore =
            s.project.reputationScore + MILESTONE_REPUTATION_BOOST
        ∧ t.aidBalances s.project.creator =
            s.aidBalances s.project.creator +
              MILESTONE_COMPLETION_REWARD * tokenUnit)
    ∧ (approveReleaseAmount s mid = 0 →
        t.balance = s.balance
        ∧ t.ethSent = s.ethSent
        ∧ t.project.reputationScore = s.project.reputationScore
        ∧ t.aidBalances = s.aidBalances) := by
  obtain ⟨-, hshape⟩ := approveMilestone_ok_inv h
  have hclamp : s.balance < (s.milestones mid).fundingAmount →
      approveReleaseAmount s mid = s.balance := by
    intro hlt
    exact min_eq_right (Nat.le_of_lt hlt)
  rcases hshape with ⟨hpos, ht⟩ | ⟨hzero, ht⟩
  · subst ht
    refine ⟨by simp, hclamp, ?_, ?_⟩
    · intro _
      refine ⟨?_, by simp, rfl, by simp⟩
      exact Nat.sub_add_cancel (Nat.min_le_right _ _)
    · intro hzero2
      rw [hzero2] at hpos
      exact absurd hpos (lt_irrefl 0)
  · subst ht
    refine ⟨by simp, hclamp, ?_, ?_⟩
    · intro hpos2
      rw [hzero] at hpos2
      exact absurd hpos2 (lt_irrefl 0)
    · intro _
      exact ⟨rfl, rfl, rfl, rfl⟩

/-- C4 witness: the amended release rule applied to the two concrete
approvals of the scenarios — the positive-release one from donor 2's vote on
`sB0`, and the zero-release one on the drained instance. -/
theorem c4_release_effects_witness :
    (commit c2Voted (approveMilestone c2Voted 1)).project.reputationScore =
      c2Voted.project.reputationScore + MILESTONE_REPUTATION_BOOST :=
  ((c4_release_effects c2Voted
    (commit c2Voted (approveMilestone c2Voted 1)) 1 rfl).2.2.1
      (by decide)).2.2.1

/-! Claim C5. -/

/-- C5, original refuted: `initialize` accepts a zero funding goal and an
empty name — the source performs no validation of either precondition. -/
theorem c5_no_validation_counterexample :
    exOk (initProject emptyState 99 10 "" "" "" 0 0) = true
    ∧ (commit emptyState
        (initProject emptyState 99 10 "" "" "" 0 0)).project.fundingGoal = 0
    ∧ (commit emptyState
        (initProject emptyState 99 10 "" "" "" 0 0)).project.name = "" := by
  decide

/-- C5 (amended): `initialize` performs no validation of `fundingGoal` or
`name` — on a not-yet-initialised instance it succeeds for any arguments,
storing them as given — but it can succeed at most once: after a successful
call, every further call (with any arguments) fails with the
already-initialised error, and since it fails the stored Project is
unchanged. -/
theorem c5_one_shot (s t : AidChainState) (a c : Addr) (nm dsc ipfs : String)
    (goal now : Nat)
    (h : initProject s a c nm dsc ipfs goal now = Except.ok t) :
    s.inited = false
    ∧ t.inited = true
    ∧ t.project.fundingGoal = goal
    ∧ t.project.name = nm
    ∧ (∀ a2 c2 : Addr, ∀ nm2 dsc2 ipfs2 : String, ∀ goal2 now2 : Nat,
        initProject t a2 c2 nm2 dsc2 ipfs2 goal2 now2 =
          Except.error AidError.alreadyInited)
    ∧ (∀ s2 : AidChainState, s2.inited = false →
        ∀ a3 c3 : Addr, ∀ nm3 dsc3 ipfs3 : String, ∀ goal3 now3 : Nat,
          exOk (initProject s2 a3 c3 nm3 dsc3 ipfs3 goal3 now3) = true) := by
  obtain ⟨h0, ht⟩ := initProject_ok_inv h
  subst ht
  refine ⟨h0, rfl, rfl, rfl, ?_, ?_⟩
  · intro a2 c2 nm2 dsc2 ipfs2 goal2 now2
    simp [initProject]
  · intro s2 h2 a3 c3 nm3 dsc3 ipfs3 goal3 now3
    simp [initProject, h2]

/-- C5 witness: the one-shot rule applied to the concrete initialisation of
the scenario instance. -/
theorem c5_one_shot_witness :
    initProject sInit 99 10 "p" "d" "h" 10 0 =
      Except.error AidError.alreadyInited :=
  (c5_one_shot emptyState sInit 99 10 "p" "d" "h" 10 0 rfl).2.2.2.2.1
    99 10 "p" "d" "h" 10 0

/-! Claim C6. -/

/-- C6: from an unlocked state, `fundProject` succeeds iff the attached value
is positive, the project is active and the creator is verified; the failures
are `DonationMustBePositive`, `ProjectNotActive` and `ProjectNotVerified` in
the source's check order, and every failing call leaves the state unchanged. -/
theorem c6_fund_gating (s : AidChainState) (a : Addr) (v now : Nat)
    (hl : s.locked = false) :
    (exOk (fundProject s a v now) = true ↔
      0 < v ∧ s.project.active = true ∧ s.project.zkKycVerified = true)
    ∧ (v = 0 →
        fundProject s a v now = Except.error AidError.donationMustBePositive)
    ∧ (0 < v → s.project.active = false →
        fundProject s a v now = Except.error AidError.projectNotActive)
    ∧ (0 < v → s.project.active = true → s.project.zkKycVerified = false →
        fundProject s a v now = Except.error AidError.projectNotVerified)
    ∧ (∀ e, fundProject s a v now = Except.error e →
        step s (Op.fund a v now) = s) := by
  refine ⟨?_, ?_, ?_, ?_, ?_⟩
  · by_cases hv : v = 0 <;> by_cases hA : s.project.active = true <;>
      by_cases hV : s.project.zkKycVerified = true <;>
      simp [fundProject, hl, hv, hA, hV, apply_ite exOk,
        Nat.pos_iff_ne_zero]
  · intro hv
    subst hv
    simp [fundProject, hl]
  · intro hv hA
    simp [fundProject, hl, hA, Nat.pos_iff_ne_zero.mp hv]
  · intro hv hA hV
    simp [fundProject, hl, hA, hV, Nat.pos_iff_ne_zero.mp hv]
  · intro e he
    exact step_of_error he

/-- C6 witness: the gate applied to a concrete successful donation on the
verified scenario instance. -/
theorem c6_fund_gating_witness :
    exOk (fundProject sVer 1 5 0) = true :=
  (c6_fund_gating sVer 1 5 0 rfl).1.mpr (by decide)

/-! Claim C7. -/

theorem mapSet2_preserve_true (f : Nat → Nat → Bool) (k a m v : Nat)
    (hm : f m v = true) : mapSet2 f k a true m v = true := by
  unfold mapSet2 mapSet
  by_cases h1 : m = k
  · subst h1
    by_cases h2 : v = a <;> simp [h2, hm]
  · simp [h1, hm]

theorem mapSet2_point (f : Nat → Nat → Bool) (k a : Nat) :
    mapSet2 f k a true k a = true := by
  simp [mapSet2]

theorem voteOnMilestone_votes_eq {s t : AidChainState} {a : Addr}
    {now mid : Nat} {b : Bool}
    (h : voteOnMilestone s a now mid b = Except.ok t) :
    t.milestoneVotes = mapSet2 s.milestoneVotes mid a true := by
  obtain ⟨-, -, -, -, -, -, -, hcase⟩ := voteOnMilestone_ok_inv h
  rcases hcase with ⟨-, ht⟩ | ⟨-, ha2⟩
  · subst ht
    rfl
  · obtain ⟨-, hshape⟩ := approveMilestone_ok_inv ha2
    rcases hshape with ⟨-, ht⟩ | ⟨-, ht⟩ <;> subst ht <;> rfl

theorem milestoneVotes_step_true {s : AidChainState} {m : Nat} {v : Addr}
    (hm : s.milestoneVotes m v = true) (op : Op) :
    (step s op).milestoneVotes m v = true := by
  cases hop : dispatch s op with
  | error e =>
    rw [step_of_error hop]
    exact hm
  | ok t =>
    rw [step_of_ok hop]
    cases op with
    | verify =>
      obtain ⟨-, ht⟩ := verifyZkKyc_ok_inv hop
      subst ht
      exact hm
    | fund a val n =>
      obtain ⟨-, -, -, -, hts⟩ := fundProject_ok_inv hop
      rcases hts with ht | ht <;> subst ht <;> exact hm
    | create a n d amt dur =>
      obtain ⟨-, -, ht⟩ := createMilestone_ok_inv hop
      subst ht
      exact hm
    | anchor a mid p =>
      obtain ⟨-, -, -, -, ht⟩ := submitMilestoneProof_ok_inv hop
      subst ht
      exact hm
    | fin a mid =>
      obtain ⟨-, -, -, -, ht⟩ := finalizeMilestone_ok_inv hop
      subst ht
      exact hm
    | vote a n mid b =>
      rw [voteOnMilestone_votes_eq hop]
      exact mapSet2_preserve_true _ _ _ _ _ hm

theorem voteOnMilestone_already {s : AidChainState} {a : Addr} {now mid : Nat}
    {b : Bool} (hm : s.milestoneVotes mid a = true) :
    exOk (voteOnMilestone s a now mid b) = false := by
  cases hv : voteOnMilestone s a now mid b with
  | error e => rfl
  | ok t =>
    obtain ⟨-, -, -, -, -, hrec, -, -⟩ := voteOnMilestone_ok_inv hv
    rw [hm] at hrec
    cases hrec

theorem step_of_not_ok {s : AidChainState} {op : Op}
    (h : exOk (dispatch s op) = false) : step s op = s := by
  cases hop : dispatch s op with
  | error e => exact step_of_error hop
  | ok t =>
    rw [hop] at h
    simp [exOk] at h

theorem voteCount_zero (m : Nat) (v : Addr) (s : AidChainState)
    (ops : List Op) (hm : s.milestoneVotes m v = true) :
    voteCount m v s ops = 0 := by
  induction ops generalizing s with
  | nil => rfl
  | cons op rest ih =>
    unfold voteCount
    have hz : (if op.isVoteOn m v && exOk (dispatch s op) then 1 else 0) = 0 := by
      by_cases hv : op.isVoteOn m v = true
      · cases op with
        | vote a n mid b =>
          simp only [Op.isVoteOn, Bool.and_eq_true, beq_iff_eq] at hv
          have hm2 : s.milestoneVotes mid a = true := by
            rw [hv.1, hv.2]
            exact hm
          simp [dispatch, voteOnMilestone_already hm2]
        | verify => simp [Op.isVoteOn] at hv
        | fund a val n => simp [Op.isVoteOn] at hv
        | create a n d amt dur => simp [Op.isVoteOn] at hv
        | anchor a mid p => simp [Op.isVoteOn] at hv
        | fin a mid => simp [Op.isVoteOn] at hv
      · have hv2 : op.isVoteOn m v = false := Bool.eq_false_iff.mpr hv
        simp [hv2]
    rw [hz, Nat.zero_add]
    exact ih (step s op) (milestoneVotes_step_true hm op)

theorem voteOnMilestone_sets_receipt {s t : AidChainState} {a : Addr}
    {now mid : Nat} {b : Bool}
    (h : voteOnMilestone s a now mid b = Except.ok t) :
    t.milestoneVotes mid a = true := by
  rw [voteOnMilestone_votes_eq h]
  exact mapSet2_point _ _ _

theorem voteCount_le_one (m : Nat) (v : Addr) (s : AidChainState)
    (ops : List Op) : voteCount m v s ops ≤ 1 := by
  induction ops generalizing s with
  | nil => exact Nat.zero_le 1
  | cons op rest ih =>
    unfold voteCount
    by_cases hsucc : (op.isVoteOn m v && exOk (dispatch s op)) = true
    · have hset : (step s op).milestoneVotes m v = true := by
        simp only [Bool.and_eq_true] at hsucc
        obtain ⟨hv, hok⟩ := hsucc
        cases op with
        | vote a n mid b =>
          simp only [Op.isVoteOn, Bool.and_eq_true, beq_iff_eq] at hv
          cases hop : dispatch s (Op.vote a n mid b) with
          | error e =>
            rw [hop] at hok
            simp [exOk] at hok
          | ok t =>
            rw [step_of_ok hop]
            have hset2 := voteOnMilestone_sets_receipt hop
            rw [hv.1, hv.2] at hset2
            exact hset2
        | verify => simp [Op.isVoteOn] at hv
        | fund a val n => simp [Op.isVoteOn] at hv
        | create a n d amt dur => simp [Op.isVoteOn] at hv
        | anchor a mid p => simp [Op.isVoteOn] at hv
        | fin a mid => simp [Op.isVoteOn] at hv
      rw [if_pos hsucc, voteCount_zero m v (step s op) rest hset]
    · rw [if_neg hsucc, Nat.zero_add]
      exact ih (step s op)

/-- C7, original refuted: in Scenario B donor 1 has a recorded vote receipt
on milestone 1, yet the second vote attempt fails with
`MilestoneAlreadyApproved` — not `AlreadyVoted` — because the approval guard
fires before the receipt guard once the milestone has been auto-approved. -/
theorem c7_second_vote_error_counterexample :
    sB2.milestoneVotes 1 1 = true
    ∧ errOf (voteOnMilestone sB2 1 7 1 false) =
        some (AidError.milestoneAlreadyApproved 1)
    ∧ ¬ (errOf (voteOnMilestone sB2 1 7 1 false) =
          some (AidError.alreadyVoted 1 1)) := by
  decide

/-- C7 (amended): at most one `voteOnMilestone` call per (milestone, voter)
pair ever succeeds along any run; once the receipt is recorded every later
attempt by that voter on that milestone fails and leaves the state (hence
both tallies) unchanged, and the failure is `AlreadyVoted` precisely when the
earlier guards (invalid id, not completed, already approved, deadline passed)
do not fire first. -/
theorem c7_single_vote :
    (∀ s : AidChainState, ∀ ops : List Op, ∀ m : Nat, ∀ v : Addr,
      voteCount m v s ops ≤ 1)
    ∧ (∀ s : AidChainState, ∀ m : Nat, ∀ v : Addr, ∀ now : Nat, ∀ b : Bool,
        s.milestoneVotes m v = true →
          exOk (voteOnMilestone s v now m b) = false
          ∧ step s (Op.vote v now m b) = s)
    ∧ (∀ s : AidChainState, ∀ m : Nat, ∀ v : Addr, ∀ now : Nat, ∀ b : Bool,
        s.milestoneVotes m v = true →
        m ≠ 0 → m ≤ s.milestoneCount →
        (s.milestones m).completed = true →
        (s.milestones m).approved = false →
        now < (s.milestones m).votingDeadline →
          voteOnMilestone s v now m b =
            Except.error (AidError.alreadyVoted m v)) := by
  refine ⟨fun s ops m v => voteCount_le_one m v s ops, ?_, ?_⟩
  · intro s m v now b hm
    refine ⟨voteOnMilestone_already hm, ?_⟩
    exact step_of_not_ok (voteOnMilestone_already hm)
  · intro s m v now b hm hm0 hmle hcomp happ hdl
    unfold voteOnMilestone
    simp [hm0, Nat.not_lt.mpr hmle, hcomp, happ, Nat.not_le.mpr hdl, hm]

/-- C7 witness: on `sB1` (donor 1 voted, milestone still unapproved and in
its voting window) the repeated attempt fails exactly with `AlreadyVoted`. -/
theorem c7_single_vote_witness :
    voteOnMilestone sB1 1 7 1 false =
      Except.error (AidError.alreadyVoted 1 1) :=
  c7_single_vote.2.2 sB1 1 1 7 false (by decide) (by decide) (by decide)
    (by decide) (by decide) (by decide)

/-! Claim C8. -/

theorem voteOnMilestone_frame {s t : AidChainState} {a : Addr} {now mid : Nat}
    {b : Bool} (h : voteOnMilestone s a now mid b = Except.ok t) :
    t.milestoneCount = s.milestoneCount
    ∧ (∀ k, k ≠ mid → t.milestones k = s.milestones k)
    ∧ t.projectDonations = s.projectDonations
    ∧ t.donorReputation = s.donorReputation
    ∧ t.donorHistory = s.donorHistory
    ∧ t.project.fundsRaised = s.project.fundsRaised
    ∧ (t.project.reputationScore = s.project.reputationScore ∨
       t.project.reputationScore =
        s.project.reputationScore + MILESTONE_REPUTATION_BOOST)
    ∧ (∀ k, (t.milestones k).completed = (s.milestones k).completed)
    ∧ ((t.milestones mid).votesFor = (s.milestones mid).votesFor ∨
       (t.milestones mid).votesFor =
        (s.milestones mid).votesFor + s.projectDonations a)
    ∧ ((t.milestones mid).votesAgainst = (s.milestones mid).votesAgainst ∨
       (t.milestones mid).votesAgainst =
        (s.milestones mid).votesAgainst + s.projectDonations a) := by
  obtain ⟨-, -, -, -, -, -, -, hcase⟩ := voteOnMilestone_ok_inv h
  have hvm : ∀ u : AidChainState,
      u.milestones = mapSet (voteMarked s a mid b).milestones mid
        { (voteMarked s a mid b).milestones mid with approved := true } →
      u.milestones mid =
        { (voteMarked s a mid b).milestones mid with approved := true } := by
    intro u hu
    rw [hu]
    exact mapSet_same _ _ _
  have hcompleted : ∀ k,
      ((voteMarked s a mid b).milestones k).completed =
        (s.milestones k).completed := by
    intro k
    by_cases hk : k = mid
    · subst hk
      rw [voteMarked_milestones_at]
      split <;> rfl
    · rw [voteMarked_milestones_ne _ _ _ _ _ hk]
  have hvotesF :
      ((voteMarked s a mid b).milestones mid).votesFor =
        (s.milestones mid).votesFor ∨
      ((voteMarked s a mid b).milestones mid).votesFor =
        (s.milestones mid).votesFor + s.projectDonations a := by
    rw [voteMarked_milestones_at]
    cases b
    · exact Or.inl rfl
    · exact Or.inr rfl
  have hvotesA :
      ((voteMarked s a mid b).milestones mid).votesAgainst =
        (s.milestones mid).votesAgainst ∨
      ((voteMarked s a mid b).milestones mid).votesAgainst =
        (s.milestones mid).votesAgainst + s.projectDonations a := by
    rw [voteMarked_milestones_at]
    cases b
    · exact Or.inr rfl
    · exact Or.inl rfl
  rcases hcase with ⟨-, ht⟩ | ⟨-, ha2⟩
  · subst ht
    refine ⟨rfl, ?_, rfl, rfl, rfl, rfl, Or.inl rfl, hcompleted, hvotesF,
      hvotesA⟩
    intro k hk
    exact voteMarked_milestones_ne _ _ _ _ _ hk
  · obtain ⟨-, hshape⟩ := approveMilestone_ok_inv ha2
    have hmil : t.milestones = mapSet (voteMarked s a mid b).milestones mid
        { (voteMarked s a mid b).milestones mid with approved := true } := by
      rcases hshape with ⟨-, ht⟩ | ⟨-, ht⟩ <;> subst ht <;> rfl
    have hrep : t.project.reputationScore = s.project.reputationScore ∨
        t.project.reputationScore =
          s.project.reputationScore + MILESTONE_REPUTATION_BOOST := by
      rcases hshape with ⟨-, ht⟩ | ⟨-, ht⟩ <;> subst ht
      · exact Or.inr rfl
      · exact Or.inl rfl
    have hrest : t.projectDonations = s.projectDonations
        ∧ t.donorReputation = s.donorReputation
        ∧ t.donorHistory = s.donorHistory
        ∧ t.project.fundsRaised = s.project.fundsRaised
        ∧ t.milestoneCount = s.milestoneCount := by
      rcases hshape with ⟨-, ht⟩ | ⟨-, ht⟩ <;> subst ht <;>
        exact ⟨rfl, rfl, rfl, rfl, rfl⟩
    refine ⟨hrest.2.2.2.2, ?_, hrest.1, hrest.2.1, hrest.2.2.1,
      hrest.2.2.2.1, hrep, ?_, ?_, ?_⟩
    · intro k hk
      rw [hmil, mapSet_ne _ _ _ _ hk]
      exact voteMarked_milestones_ne _ _ _ _ _ hk
    · intro k
      by_cases hk : k = mid
      · subst hk
        rw [hvm t hmil]
        exact hcompleted k
      · rw [hmil, mapSet_ne _ _ _ _ hk]
        exact hcompleted k
    · rw [hvm t hmil]
      exact hvotesF
    · rw [hvm t hmil]
      exact hvotesA

theorem mapSet_add_le (f : Nat → Nat) (k x add : Nat) :
    f x ≤ mapSet f k (f k + add) x := by
  unfold mapSet
  by_cases h : x = k
  · subst h
    simp
  · simp [h]

theorem stateLe_refl (s : AidChainState) : StateLe s s :=
  ⟨le_refl _, le_refl _, fun _ => le_refl _, fun _ => le_refl _,
   fun _ => le_refl _⟩

theorem stateLe_trans {s t u : AidChainState} (h1 : StateLe s t)
    (h2 : StateLe t u) : StateLe s u :=
  ⟨le_trans h1.1 h2.1, le_trans h1.2.1 h2.2.1,
   fun k => le_trans (h1.2.2.1 k) (h2.2.2.1 k),
   fun k => le_trans (h1.2.2.2.1 k) (h2.2.2.2.1 k),
   fun d => le_trans (h1.2.2.2.2 d) (h2.2.2.2.2 d)⟩

theorem stateLe_step (s : AidChainState) (op : Op) (hInv : Inv s) :
    StateLe s (step s op) := by
  cases hop : dispatch s op with
  | error e =>
    rw [step_of_error hop]
    exact stateLe_refl s
  | ok t =>
    rw [step_of_ok hop]
    cases op with
    | verify =>
      obtain ⟨-, ht⟩ := verifyZkKyc_ok_inv hop
      subst ht
      exact ⟨le_refl _, le_refl _, fun _ => le_refl _, fun _ => le_refl _,
        fun _ => le_refl _⟩
    | fund a val n =>
      obtain ⟨-, -, -, -, hts⟩ := fundProject_ok_inv hop
      rcases hts with ht | ht <;> subst ht <;>
        exact ⟨Nat.le_add_right _ _, le_refl _, fun _ => le_refl _,
          fun _ => le_refl _, fun d => mapSet_add_le _ _ _ _⟩
    | create a n d amt dur =>
      obtain ⟨-, -, ht⟩ := createMilestone_ok_inv hop
      subst ht
      refine ⟨le_refl _, le_refl _, ?_, ?_, fun _ => le_refl _⟩
      · intro k
        by_cases hk : k = s.milestoneCount + 1
        · subst hk
          rw [hInv _ (Nat.lt_succ_self _)]
          exact Nat.zero_le _
        · simp [mapSet_ne _ _ _ _ hk]
      · intro k
        by_cases hk : k = s.milestoneCount + 1
        · subst hk
          rw [hInv _ (Nat.lt_succ_self _)]
          exact Nat.zero_le _
        · simp [mapSet_ne _ _ _ _ hk]
    | anchor a mid p =>
      obtain ⟨-, -, -, -, ht⟩ := submitMilestoneProof_ok_inv hop
      subst ht
      refine ⟨le_refl _, le_refl _, ?_, ?_, fun _ => le_refl _⟩ <;>
        intro k <;> by_cases hk : k = mid
      · subst hk
        simp
      · simp [mapSet_ne _ _ _ _ hk]
      · subst hk
        simp
      · simp [mapSet_ne _ _ _ _ hk]
    | fin a mid =>
      obtain ⟨-, -, -, -, ht⟩ := finalizeMilestone_ok_inv hop
      subst ht
      refine ⟨le_refl _, le_refl _, ?_, ?_, fun _ => le_refl _⟩ <;>
        intro k <;> by_cases hk : k = mid
      · subst hk
        simp
      · simp [mapSet_ne _ _ _ _ hk]
      · subst hk
        simp
      · simp [mapSet_ne _ _ _ _ hk]
    | vote a n mid b =>
      obtain ⟨-, hne, hdon, hrep2, hhist, hfunds, hrep, hcompl, hvF, hvA⟩ :=
        voteOnMilestone_frame hop
      refine ⟨le_of_eq hfunds.symm, ?_, ?_, ?_, fun d => le_of_eq
        (congrFun hrep2 d).symm⟩
      · rcases hrep with he | he
        · exact le_of_eq he.symm
        · rw [he]
          exact Nat.le_add_right _ _
      · intro k
        by_cases hk : k = mid
        · subst hk
          rcases hvF with he | he
          · exact le_of_eq he.symm
          · rw [he]
            exact Nat.le_add_right _ _
        · rw [hne k hk]
      · intro k
        by_cases hk : k = mid
        · subst hk
          rcases hvA with he | he
          · exact le_of_eq he.symm
          · rw [he]
            exact Nat.le_add_right _ _
        · rw [hne k hk]

theorem inv_step (s : AidChainState) (op : Op) (hInv : Inv s) :
    Inv (step s op) := by
  cases hop : dispatch s op with
  | error e =>
    rw [step_of_error hop]
    exact hInv
  | ok t =>
    rw [step_of_ok hop]
    cases op with
    | verify =>
      obtain ⟨-, ht⟩ := verifyZkKyc_ok_inv hop
      subst ht
      exact hInv
    | fund a val n =>
      obtain ⟨-, -, -, -, hts⟩ := fundProject_ok_inv hop
      rcases hts with ht | ht <;> subst ht <;> exact hInv
    | create a n d amt dur =>
      obtain ⟨-, -, ht⟩ := createMilestone_ok_inv hop
      subst ht
      intro k hk
      have hk2 : k ≠ s.milestoneCount + 1 := by
        intro he
        rw [he] at hk
        exact absurd hk (lt_irrefl _)
      dsimp only
      rw [mapSet_ne _ _ _ _ hk2]
      exact hInv k (Nat.lt_of_succ_lt hk)
    | anchor a mid p =>
      obtain ⟨-, hle, -, -, ht⟩ := submitMilestoneProof_ok_inv hop
      subst ht
      intro k hk
      have hk2 : k ≠ mid := by
        intro he
        rw [he] at hk
        exact absurd hle (Nat.not_le.mpr hk)
      dsimp only
      rw [mapSet_ne _ _ _ _ hk2]
      exact hInv k hk
    | fin a mid =>
      obtain ⟨-, hle, -, -, ht⟩ := finalizeMilestone_ok_inv hop
      subst ht
      intro k hk
      have hk2 : k ≠ mid := by
        intro he
        rw [he] at hk
        exact absurd hle (Nat.not_le.mpr hk)
      dsimp only
      rw [mapSet_ne _ _ _ _ hk2]
      exact hInv k hk
    | vote a n mid b =>
      obtain ⟨hmle, -⟩ := (voteOnMilestone_ok_inv hop).2
      obtain ⟨hcount, hne, -⟩ := voteOnMilestone_frame hop
      intro k hk
      rw [hcount] at hk
      have hk2 : k ≠ mid := by
        intro he
        rw [he] at hk
        exact absurd hmle (Nat.not_le.mpr hk)
      rw [hne k hk2]
      exact hInv k hk

theorem inv_reachable (s : AidChainState) (h : Reachable s) : Inv s := by
  induction h with
  | base a c nm dsc ipfs goal now s h =>
    obtain ⟨-, ht⟩ := initProject_ok_inv h
    subst ht
    intro k _
    rfl
  | next s op h ih => exact inv_step s op ih

/-- C8: along every sequence of top-level operations from a state satisfying
the reachable-state structural invariant, `fundsRaised`, the project
`reputationScore`, every milestone's `votesFor` and `votesAgainst`, and every
donor's cumulative reputation are monotonically non-decreasing; failing
operations leave the state unchanged, so they never lower them either. -/
theorem c8_monotone (s : AidChainState) (ops : List Op) (hInv : Inv s) :
    StateLe s (run s ops) := by
  induction ops generalizing s with
  | nil => exact stateLe_refl s
  | cons op rest ih =>
    exact stateLe_trans (stateLe_step s op hInv)
      (ih (step s op) (inv_step s op hInv))

/-- C8 witness: monotonicity instantiated on the concrete scenario instance
and a concrete operation sequence. -/
theorem c8_monotone_witness :
    StateLe sInit (run sInit [Op.verify, Op.fund 1 1 0, Op.fund 2 2 0]) :=
  c8_monotone sInit [Op.verify, Op.fund 1 1 0, Op.fund 2 2 0]
    (inv_reachable sInit (Reachable.base 99 10 "p" "d" "h" 10 0 sInit rfl))

/-! Claim C9. -/

theorem completed_frame (s : AidChainState) (op : Op) (k : Nat) (hInv : Inv s)
    (hop : Op.isFin op = false) :
    ((step s op).milestones k).completed = (s.milestones k).completed := by
  cases hopr : dispatch s op with
  | error e => rw [step_of_error hopr]
  | ok t =>
    rw [step_of_ok hopr]
    cases op with
    | verify =>
      obtain ⟨-, ht⟩ := verifyZkKyc_ok_inv hopr
      subst ht
      rfl
    | fund a val n =>
      obtain ⟨-, -, -, -, hts⟩ := fundProject_ok_inv hopr
      rcases hts with ht | ht <;> subst ht <;> rfl
    | create a n d amt dur =>
      obtain ⟨-, -, ht⟩ := createMilestone_ok_inv hopr
      subst ht
      by_cases hk : k = s.milestoneCount + 1
      · subst hk
        rw [hInv _ (Nat.lt_succ_self _)]
        simp [emptyMilestone]
      · simp [mapSet_ne _ _ _ _ hk]
    | anchor a mid p =>
      obtain ⟨-, -, -, -, ht⟩ := submitMilestoneProof_ok_inv hopr
      subst ht
      by_cases hk : k = mid
      · subst hk
        simp
      · simp [mapSet_ne _ _ _ _ hk]
    | vote a n mid b =>
      exact (voteOnMilestone_frame hopr).2.2.2.2.2.2.2.1 k
    | fin a mid => simp [Op.isFin] at hop

/-- C9: a successful `submitMilestoneProof` on a not-yet-completed milestone
overwrites only that milestone's `proofIpfsHash` — `completed`, `approved`,
`votesFor`, `votesAgainst`, `votingDeadline`, every other milestone and every
other piece of instance state are unchanged — and it can immediately be
repeated with another proof reference; `completed` becomes true only through
the separate `finalizeMilestone` operation (no non-finalize operation changes
any milestone's `completed` flag on a well-formed state). -/
theorem c9_submit_proof_frame :
    (∀ (s t : AidChainState) (a : Addr) (mid : Nat) (p : String),
      submitMilestoneProof s a mid p = Except.ok t →
        (t.milestones mid).proofIpfsHash = p
        ∧ (t.milestones mid).completed = (s.milestones mid).completed
        ∧ (t.milestones mid).approved = (s.milestones mid).approved
        ∧ (t.milestones mid).votesFor = (s.milestones mid).votesFor
        ∧ (t.milestones mid).votesAgainst = (s.milestones mid).votesAgainst
        ∧ (t.milestones mid).votingDeadline =
            (s.milestones mid).votingDeadline
        ∧ (t.milestones mid).fundingAmount = (s.milestones mid).fundingAmount
        ∧ (∀ k, k ≠ mid → t.milestones k = s.milestones k)
        ∧ t.project = s.project
        ∧ t.milestoneCount = s.milestoneCount
        ∧ t.projectMilestones = s.projectMilestones
        ∧ t.donorReputation = s.donorReputation
        ∧ t.milestoneVotes = s.milestoneVotes
        ∧ t.projectDonations = s.projectDonations
        ∧ t.donorHistory = s.donorHistory
        ∧ t.balance = s.balance
        ∧ t.aidBalances = s.aidBalances
        ∧ t.ethSent = s.ethSent
        ∧ (∀ p2 : String, exOk (submitMilestoneProof t a mid p2) = true))
    ∧ (∀ (s : AidChainState) (op : Op) (k : Nat), Inv s →
        Op.isFin op = false →
        ((step s op).milestones k).completed = (s.milestones k).completed)
    ∧ (∀ (s t : AidChainState) (a : Addr) (mid : Nat),
        finalizeMilestone s a mid = Except.ok t →
          (t.milestones mid).completed = true) := by
  refine ⟨?_, fun s op k hInv hop => completed_frame s op k hInv hop, ?_⟩
  · intro s t a mid p h
    obtain ⟨hm0, hmle, hcr, hcomp, ht⟩ := submitMilestoneProof_ok_inv h
    subst ht
    refine ⟨by simp, by simp, by simp, by simp, by simp, by simp, by simp,
      ?_, rfl, rfl, rfl, rfl, rfl, rfl, rfl, rfl, rfl, rfl, ?_⟩
    · intro k hk
      simp [mapSet_ne _ _ _ _ hk]
    · intro p2
      simp [submitMilestoneProof, hm0, Nat.not_lt.mpr hmle, hcr, hcomp]
  · intro s t a mid h
    obtain ⟨-, -, -, -, ht⟩ := finalizeMilestone_ok_inv h
    subst ht
    simp

/-- C9 witness: the frame property applied to the concrete proof anchoring of
milestone 1 on the scenario instance. -/
theorem c9_submit_proof_frame_witness :
    (sM1.milestones 1).proofIpfsHash = "q"
    ∧ (sM1.milestones 1).completed = (sM0.milestones 1).completed :=
  ⟨(c9_submit_proof_frame.1 sM0 sM1 10 1 "q" rfl).1,
   (c9_submit_proof_frame.1 sM0 sM1 10 1 "q" rfl).2.1⟩

/-! Claim C10. -/

theorem sumAmounts_append (l : List Donation) (d : Donation) :
    sumAmounts (l ++ [d]) = sumAmounts l + d.amount := by
  simp [sumAmounts]

theorem fundProject_donor_effects {s t : AidChainState} {a : Addr}
    {v now : Nat} (h : fundProject s a v now = Except.ok t) :
    t.donorReputation a = s.donorReputation a + v
    ∧ t.projectDonations a = s.projectDonations a + v
    ∧ t.donorHistory a = s.donorHistory a ++
        [{ donor := a, amount := v, timestamp := now
           projectId := s.project.id }]
    ∧ (∀ d, d ≠ a → t.donorReputation d = s.donorReputation d
        ∧ t.projectDonations d = s.projectDonations d
        ∧ t.donorHistory d = s.donorHistory d) := by
  obtain ⟨-, -, -, -, hts⟩ := fundProject_ok_inv h
  rcases hts with ht | ht <;> subst ht <;>
    refine ⟨by simp [fundMidState], by simp [fundMidState],
      by simp [fundMidState], ?_⟩ <;>
    · intro d hd
      refine ⟨?_, ?_, ?_⟩ <;> simp [fundMidState, mapSet_ne _ _ _ _ hd]

theorem donor_frame (s : AidChainState) (op : Op) (d : Addr)
    (hop : ∀ v now, op ≠ Op.fund d v now) :
    (step s op).donorReputation d = s.donorReputation d
    ∧ (step s op).projectDonations d = s.projectDonations d
    ∧ (step s op).donorHistory d = s.donorHistory d := by
  cases hopr : dispatch s op with
  | error e =>
    rw [step_of_error hopr]
    exact ⟨rfl, rfl, rfl⟩
  | ok t =>
    rw [step_of_ok hopr]
    cases op with
    | verify =>
      obtain ⟨-, ht⟩ := verifyZkKyc_ok_inv hopr
      subst ht
      exact ⟨rfl, rfl, rfl⟩
    | create a n de amt dur =>
      obtain ⟨-, -, ht⟩ := createMilestone_ok_inv hopr
      subst ht
      exact ⟨rfl, rfl, rfl⟩
    | anchor a mid p =>
      obtain ⟨-, -, -, -, ht⟩ := submitMilestoneProof_ok_inv hopr
      subst ht
      exact ⟨rfl, rfl, rfl⟩
    | fin a mid =>
      obtain ⟨-, -, -, -, ht⟩ := finalizeMilestone_ok_inv hopr
      subst ht
      exact ⟨rfl, rfl, rfl⟩
    | vote a n mid b =>
      obtain ⟨-, -, hdon, hrep, hhist, -⟩ := voteOnMilestone_frame hopr
      exact ⟨congrFun hrep d, congrFun hdon d, congrFun hhist d⟩
    | fund a v n =>
      have hda : d ≠ a := by
        intro he
        exact hop v n (by rw [he])
      obtain ⟨-, -, -, hfr⟩ := fundProject_donor_effects hopr
      exact hfr d hda

theorem donorInv_step (s : AidChainState) (op : Op) (hInv : donorInv s) :
    donorInv (step s op) := by
  intro d
  by_cases hf : ∃ v now, op = Op.fund d v now
  · obtain ⟨v, n, rfl⟩ := hf
    cases hopr : dispatch s (Op.fund d v n) with
    | error e =>
      rw [step_of_error hopr]
      exact hInv d
    | ok t =>
      rw [step_of_ok hopr]
      obtain ⟨hra, hpa, hha, -⟩ := fundProject_donor_effects hopr
      refine ⟨?_, ?_⟩
      · rw [hra, hpa, (hInv d).1]
      · rw [hpa, hha, sumAmounts_append, (hInv d).2]
  · push_neg at hf
    obtain ⟨h1, h2, h3⟩ := donor_frame s op d hf
    rw [h1, h2, h3]
    exact hInv d

/-- C10: in every reachable state, each donor's global reputation equals the
donor's cumulative project donations (the vote weight) and both equal the sum
of the donor's recorded donation amounts; a successful `fundProject` by a
donor raises all three together by the donated amount and appends exactly the
matching record, and no other operation (nor a donation by another donor, nor
any failing call) touches any of the three. -/
theorem c10_donor_accounting :
    (∀ s : AidChainState, Reachable s → donorInv s)
    ∧ (∀ (s t : AidChainState) (a : Addr) (v now : Nat),
        fundProject s a v now = Except.ok t →
          t.donorReputation a = s.donorReputation a + v
          ∧ t.projectDonations a = s.projectDonations a + v
          ∧ t.donorHistory a = s.donorHistory a ++
              [{ donor := a, amount := v, timestamp := now
                 projectId := s.project.id }])
    ∧ (∀ (s t : AidChainState) (a d : Addr) (v now : Nat), d ≠ a →
        fundProject s a v now = Except.ok t →
          t.donorReputation d = s.donorReputation d
          ∧ t.projectDonations d = s.projectDonations d
          ∧ t.donorHistory d = s.donorHistory d)
    ∧ (∀ (s : AidChainState) (op : Op) (d : Addr),
        (∀ v now, op ≠ Op.fund d v now) →
          (step s op).donorReputation d = s.donorReputation d
          ∧ (step s op).projectDonations d = s.projectDonations d
          ∧ (step s op).donorHistory d = s.donorHistory d) := by
  refine ⟨?_, ?_, ?_, fun s op d h => donor_frame s op d h⟩
  · intro s h
    induction h with
    | base a c nm dsc ipfs goal now s h =>
      obtain ⟨-, ht⟩ := initProject_ok_inv h
      subst ht
      intro d
      exact ⟨rfl, rfl⟩
    | next s op h ih => exact donorInv_step s op ih
  · intro s t a v now h
    obtain ⟨h1, h2, h3, -⟩ := fundProject_donor_effects h
    exact ⟨h1, h2, h3⟩
  · intro s t a d v now hd h
    obtain ⟨-, -, -, hfr⟩ := fundProject_donor_effects h
    exact hfr d hd

/-- C10 witness: the accounting invariant on the concrete reachable Scenario
B prefix state. -/
theorem c10_donor_accounting_witness :
    donorInv sB0 :=
  c10_donor_accounting.1 sB0
    (show Reachable (step (step (step (step (step sInit Op.verify)
        (Op.fund 1 1 0)) (Op.fund 2 2 0)) (Op.create 10 0 "m" 2 100))
        (Op.fin 10 1)) from
      Reachable.next _ _ (Reachable.next _ _ (Reachable.next _ _
        (Reachable.next _ _ (Reachable.next _ _
          (Reachable.base 99 10 "p" "d" "h" 10 0 sInit rfl))))))


end AidChain
